import Mathlib

/-!
Verification of `wt_reader.py` (WiredTigerReader): a read-only WiredTiger
dump tool. The engine (wiredtiger library) is the external boundary; cursor
advances are modelled as a finite stream of outcomes fed to the embedded
control flow of `list_collections`, `read_collection`, `close` and `main`.
-/

namespace WTReader

/-- A raw record as materialized by `read_collection`:
`{"key": cursor.get_key(), "value": cursor.get_value()}`. Keys and values
are opaque to the script; modelled as strings. -/
structure Doc where
  key : String
  value : String
deriving DecidableEq, Repr

/-- The engine constant `wiredtiger.WT_NOTFOUND`. -/
def WT_NOTFOUND : Int := -31803

/-- Outcome of one `cursor.next()` call at the external engine boundary.
The real Python binding can either return a status code or raise
`WiredTigerError`; both styles appear in the source, so both are modelled:
`found r` is return code 0 with the cursor positioned on record `r`;
`notFound` is return code `WT_NOTFOUND`; `errCode c` is a nonzero return
code `c`; `errExc nf` is a raised `WiredTigerError` where `nf` says whether
the handler test on source line 163
(`"WT_NOTFOUND" in str(e) or e.errno == wiredtiger.WT_NOTFOUND`) is true. -/
inductive AdvOutcome where
  | found (r : Doc)
  | notFound
  | errCode (c : Int)
  | errExc (notFoundish : Bool)
deriving DecidableEq, Repr

/-- Python truthiness check `if limit and count >= limit` from source
line 151: `None` and `0` are falsy, every other int is truthy. -/
def limitBreak (limit : Option Int) (count : Nat) : Bool :=
  match limit with
  | none => false
  | some l => if l = 0 then false else decide (l ≤ (count : Int))

/-- The `while True` loop of `read_collection` (source lines 141-167), one
list element per `cursor.next()` call. Returns the accumulated documents and
a flag: `false` means the loop ended by `break` (normal exhaustion or limit),
`true` means an exception escaped to the outer handler (source line 171).
`none` is a modelling artifact for step streams that run out before the loop
ends (the real loop would keep calling `next()`); well-formed streams always
yield `some`. A constructed `WiredTigerError` for a nonzero non-NOTFOUND
return code (source line 149) carries the message
`cursor.next() failed with code: ...`, which the inner handler does not
recognize as NOTFOUND, so it is logged and re-raised (source line 167). -/
def readLoop : List AdvOutcome → Option Int → Nat → List Doc → Option (List Doc × Bool)
  | [], _, _, _ => none
  | AdvOutcome.found r :: rest, limit, count, docs =>
      if limitBreak limit count then some (docs, false)
      else readLoop rest limit (count + 1) (docs ++ [r])
  | AdvOutcome.notFound :: _, _, _, docs => some (docs, false)
  | AdvOutcome.errCode c :: _, _, _, docs =>
      if c = WT_NOTFOUND then some (docs, false)
      else if c = 0 then none
      else some (docs, true)
  | AdvOutcome.errExc nf :: _, _, _, docs =>
      if nf then some (docs, false) else some (docs, true)

/-- Observable outcome of one `read_collection` call: the returned list,
whether a cursor was opened, whether `cursor.close()` ran before the return,
and whether `logger.error` ran. -/
structure ReadResult where
  documents : List Doc
  cursorOpened : Bool
  cursorClosed : Bool
  errorLogged : Bool
deriving DecidableEq, Repr

/-- `WiredTigerReader.read_collection` (source lines 115-173).
`sessionOpen` models `self.session` being non-None; `openResult` models
`session.open_cursor(table_uri)`: `none` if it raises (caught by the outer
handler, source line 171), `some steps` the cursor advance stream otherwise.
On the error exit (`raise` reaching the outer `except`) the function logs and
returns `[]`; `cursor.close()` on source line 169 is only reached on the
normal exit. -/
def read_collection (sessionOpen : Bool) (openResult : Option (List AdvOutcome))
    (limit : Option Int) : Option ReadResult :=
  if sessionOpen = false then some ⟨[], false, false, true⟩
  else
    match openResult with
    | none => some ⟨[], false, false, true⟩
    | some steps =>
      match readLoop steps limit 0 [] with
      | none => none
      | some (docs, false) => some ⟨docs, true, true, false⟩
      | some (_, true) => some ⟨[], true, false, true⟩

/-- Outcome of one iteration step of the metadata cursor in
`list_collections`: the `for uri, conf_string in meta_cursor` loop either
yields another entry, finishes normally, or raises an engine error. -/
inductive MetaOutcome where
  | entry (uri : String)
  | done
  | err
deriving DecidableEq, Repr

/-- Modelled Python builtin `str.startswith` (external boundary):
character-level prefix test. -/
def pyStartsWith (s pre : String) : Bool :=
  pre.toList.isPrefixOf s.toList

/-- The filter on source line 86: `uri.startswith("table:") and not
uri.startswith("table:index-") and not uri.startswith("table:sizeStorer")`. -/
def keepUri (uri : String) : Bool :=
  pyStartsWith uri "table:" && !pyStartsWith uri "table:index-"
    && !pyStartsWith uri "table:sizeStorer"

/-- Modelled Python `uri.split(":", 1)[1]` from source line 88: everything
after the first colon. Only evaluated on URIs that start with `table:`, so
a colon exists. -/
def afterColon (uri : String) : String :=
  String.mk ((uri.toList.dropWhile (fun ch => ch != ':')).drop 1)

/-- The `for` loop of `list_collections` (source lines 85-90). The flag in
the result is `true` when the iteration raised (escaping to the outer
handler on source line 111); `none` is the artifact for streams that run
out. -/
def listLoop : List MetaOutcome → List String → Option (List String × Bool)
  | [], _ => none
  | MetaOutcome.entry uri :: rest, acc =>
      if keepUri uri then listLoop rest (acc ++ [afterColon uri])
      else listLoop rest acc
  | MetaOutcome.done :: _, acc => some (acc, false)
  | MetaOutcome.err :: _, acc => some (acc, true)

/-- Observable outcome of one `list_collections` call. -/
structure ListResult where
  collections : List String
  cursorOpened : Bool
  cursorClosed : Bool
  errorLogged : Bool
deriving DecidableEq, Repr

/-- `WiredTigerReader.list_collections` (source lines 46-113). `openResult`
models `session.open_cursor("metadata:")`: `none` if it raises. On an engine
error mid-iteration the outer handler logs and returns `[]`;
`meta_cursor.close()` on source line 91 is only reached on the normal exit. -/
def list_collections (sessionOpen : Bool)
    (openResult : Option (List MetaOutcome)) : Option ListResult :=
  if sessionOpen = false then some ⟨[], false, false, true⟩
  else
    match openResult with
    | none => some ⟨[], false, false, true⟩
    | some steps =>
      match listLoop steps [] with
      | none => none
      | some (cols, false) => some ⟨cols, true, true, false⟩
      | some (_, true) => some ⟨[], true, false, true⟩

/-- Handle state of a `WiredTigerReader`: whether `self.session` and
`self.conn` are non-None. -/
structure ReaderState where
  sessionOpen : Bool
  connOpen : Bool
deriving DecidableEq, Repr

/-- Engine calls emitted by `close`. -/
inductive CloseEvent where
  | sessionClose
  | connClose
deriving DecidableEq, Repr

/-- `WiredTigerReader.close` (source lines 175-184): close the session if
set and clear it, then close the connection if set and clear it. Returns
the new state and the engine calls made, in order. -/
def close (s : ReaderState) : ReaderState × List CloseEvent :=
  let (sess, e1) :=
    if s.sessionOpen then (false, [CloseEvent.sessionClose])
    else (s.sessionOpen, [])
  let (conn, e2) :=
    if s.connOpen then (false, [CloseEvent.connClose])
    else (s.connOpen, [])
  (⟨sess, conn⟩, e1 ++ e2)

/-- Modelled Python builtin `int(str)` used on source line 212 (external
boundary): optional surrounding whitespace, optional sign, then one or more
decimal digits; anything else raises `ValueError` (`none`). Digit-group
underscores accepted by Python are not modelled. -/
def pyIntOfStr (s : String) : Option Int :=
  let t := s.toList.dropWhile Char.isWhitespace
  let t := (t.reverse.dropWhile Char.isWhitespace).reverse
  let (sign, digits) :=
    match t with
    | ch :: rest =>
      if ch = '-' then ((-1 : Int), rest)
      else if ch = '+' then ((1 : Int), rest)
      else ((1 : Int), t)
    | [] => ((1 : Int), t)
  if digits.isEmpty then none
  else if digits.all Char.isDigit then
    some (sign * Int.ofNat
      (digits.foldl (fun acc ch => acc * 10 + (ch.toNat - 48)) 0))
  else none

/-- Engine environment a `main` run interacts with: whether
`reader.connect()` succeeds, the metadata cursor stream, and the data-table
cursor open result for the requested table. -/
structure Env where
  connectOk : Bool
  metaSteps : List MetaOutcome
  tblOpen : Option (List AdvOutcome)
deriving Repr

/-- `main` (source lines 186-226), returning the process exit code.
`sys.exit(1)` on fewer than two argv entries or on connect failure;
an invalid third optional argument makes `int(sys.argv[3])` raise an
uncaught `ValueError`, and CPython exits with code 1; otherwise the run
ends normally with exit code 0 (`list_collections` and `read_collection`
never raise). `none` only for ill-formed step streams. -/
def main (argv : List String) (env : Env) : Option Int :=
  if argv.length < 2 then some 1
  else if env.connectOk = false then some 1
  else
    match list_collections true (some env.metaSteps) with
    | none => none
    | some _ =>
      if 2 < argv.length then
        if 3 < argv.length then
          match pyIntOfStr (argv.getD 3 "") with
          | none => some 1
          | some l =>
            match read_collection true env.tblOpen (some l) with
            | none => none
            | some _ => some 0
        else
          match read_collection true env.tblOpen none with
          | none => none
          | some _ => some 0
      else some 0

/-- Cursor advance stream of a well-behaved table holding exactly the
records `rs`: each advance succeeds in order, then `WT_NOTFOUND`. -/
def tableSteps (rs : List Doc) : List AdvOutcome :=
  rs.map AdvOutcome.found ++ [AdvOutcome.notFound]

/-- Whether a single advance outcome is a successful positioning. -/
def isFound : AdvOutcome → Bool
  | AdvOutcome.found _ => true
  | _ => false

/-- Model sanity for one step: `errCode 0` (return code 0 without a record)
cannot be produced by the engine. -/
def okStep : AdvOutcome → Bool
  | AdvOutcome.errCode c => decide (c ≠ 0)
  | _ => true

/-- A cursor stream is well-formed when every step is producible and some
step ends the iteration. -/
def wfAdv (steps : List AdvOutcome) : Bool :=
  steps.all okStep && !steps.all isFound

/-- Whether a metadata iteration step yields another entry. -/
def isEntry : MetaOutcome → Bool
  | MetaOutcome.entry _ => true
  | _ => false

/-- A metadata stream is well-formed when the iteration eventually ends. -/
def wfMeta (steps : List MetaOutcome) : Bool :=
  !steps.all isEntry

/-- Well-formedness of a table cursor open result (a failed open is fine). -/
def wfTbl : Option (List AdvOutcome) → Bool
  | none => true
  | some steps => wfAdv steps

end WTReader

namespace WTReader

lemma limitBreak_none (n : Nat) : limitBreak none n = false := rfl

lemma limitBreak_zero (n : Nat) : limitBreak (some 0) n = false := rfl

lemma limitBreak_neg (l : Int) (hl : l < 0) (n : Nat) :
    limitBreak (some l) n = true := by
  simp only [limitBreak]
  rw [if_neg (by omega)]
  simp
  omega

/-- Advancing over `found` steps appends records and bumps the count, as
long as the limit check never fires. -/
lemma readLoop_found_accum (ps : List Doc) (rest : List AdvOutcome)
    (lim : Option Int) (h : ∀ n, limitBreak lim n = false)
    (c : Nat) (acc : List Doc) :
    readLoop (ps.map AdvOutcome.found ++ rest) lim c acc
      = readLoop rest lim (c + ps.length) (acc ++ ps) := by
  induction ps generalizing c acc with
  | nil => simp
  | cons r ps ih =>
    simp only [List.map_cons, List.cons_append, readLoop, h c, if_false,
      Bool.false_eq_true, List.append_eq]
    rw [ih (c + 1) (acc ++ [r])]
    congr 1
    · simp only [List.length_cons]
      omega
    · simp

/-- With no effective limit, a well-behaved table is read in full and the
loop ends normally. -/
lemma readLoop_tableSteps_noLimit (rs : List Doc) (lim : Option Int)
    (h : ∀ n, limitBreak lim n = false) :
    readLoop (tableSteps rs) lim 0 [] = some (rs, false) := by
  rw [tableSteps, readLoop_found_accum rs [AdvOutcome.notFound] lim h 0 []]
  simp [readLoop]

/-- With a strictly positive limit `k`, a well-behaved table yields exactly
its first `k - c` remaining records and the loop ends normally. -/
lemma readLoop_tableSteps_pos (rs : List Doc) (k : Int) (hk : 0 < k)
    (c : Nat) (acc : List Doc) :
    readLoop (tableSteps rs) (some k) c acc
      = some (acc ++ rs.take (k.toNat - c), false) := by
  induction rs generalizing c acc with
  | nil => simp [tableSteps, readLoop]
  | cons r rs ih =>
    simp only [tableSteps, List.map_cons, List.cons_append, readLoop,
      List.append_eq]
    by_cases hc : limitBreak (some k) c = true
    · have hck : k ≤ (c : Int) := by
        simp only [limitBreak] at hc
        rw [if_neg (by omega)] at hc
        simpa using hc
      rw [if_pos hc]
      have : k.toNat - c = 0 := by omega
      simp [this]
    · rw [if_neg hc]
      have hck : ¬ k ≤ (c : Int) := by
        intro hle
        apply hc
        simp only [limitBreak]
        rw [if_neg (by omega)]
        simpa using hle
      rw [show (tableSteps rs : List AdvOutcome)
            = rs.map AdvOutcome.found ++ [AdvOutcome.notFound] from rfl] at ih
      rw [ih (c + 1) (acc ++ [r])]
      have hts : k.toNat - c = (k.toNat - (c + 1)) + 1 := by omega
      simp [hts]

/-- A well-formed advance stream always lets the loop finish. -/
lemma readLoop_some (steps : List AdvOutcome) (h : wfAdv steps = true)
    (lim : Option Int) (c : Nat) (acc : List Doc) :
    ∃ out, readLoop steps lim c acc = some out := by
  induction steps generalizing c acc with
  | nil => simp [wfAdv] at h
  | cons s rest ih =>
    cases s with
    | found r =>
      by_cases hb : limitBreak lim c = true
      · exact ⟨(acc, false), by simp [readLoop, hb]⟩
      · have hrest : wfAdv rest = true := by
          simp only [wfAdv, List.all_cons, Bool.and_eq_true,
            Bool.not_eq_true', Bool.not_eq_true] at h ⊢
          refine ⟨h.1.2, ?_⟩
          have := h.2
          simpa [isFound] using this
        obtain ⟨out, hout⟩ := ih hrest (c + 1) (acc ++ [r])
        exact ⟨out, by simp [readLoop, hb, hout]⟩
    | notFound => exact ⟨(acc, false), rfl⟩
    | errCode cd =>
      have hcd : cd ≠ 0 := by
        simp only [wfAdv, List.all_cons, Bool.and_eq_true] at h
        have := h.1.1
        simpa [okStep] using this
      by_cases hnf : cd = WT_NOTFOUND
      · exact ⟨(acc, false), by simp [readLoop, hnf]⟩
      · exact ⟨(acc, true), by simp [readLoop, hnf, hcd]⟩
    | errExc nf =>
      cases nf with
      | true => exact ⟨(acc, false), rfl⟩
      | false => exact ⟨(acc, true), rfl⟩

/-- The metadata loop appends the kept, name-extracted entries. -/
lemma listLoop_entries (uris : List String) (rest : List MetaOutcome)
    (acc : List String) :
    listLoop (uris.map MetaOutcome.entry ++ rest) acc
      = listLoop rest (acc ++ (uris.filter keepUri).map afterColon) := by
  induction uris generalizing acc with
  | nil => simp
  | cons u uris ih =>
    simp only [List.map_cons, List.cons_append, listLoop, List.append_eq]
    by_cases hk : keepUri u = true
    · rw [if_pos hk, ih (acc ++ [afterColon u])]
      simp [List.filter_cons, hk]
    · rw [if_neg hk, ih acc]
      simp [List.filter_cons, hk]

/-- A well-formed metadata stream always lets the loop finish. -/
lemma listLoop_some (steps : List MetaOutcome) (h : wfMeta steps = true)
    (acc : List String) : ∃ out, listLoop steps acc = some out := by
  induction steps generalizing acc with
  | nil => simp [wfMeta] at h
  | cons s rest ih =>
    cases s with
    | entry u =>
      have hrest : wfMeta rest = true := by
        simp only [wfMeta, List.all_cons, Bool.not_eq_true',
          Bool.not_eq_true] at h ⊢
        simpa [isEntry] using h
      by_cases hk : keepUri u = true
      · obtain ⟨out, hout⟩ := ih hrest (acc ++ [afterColon u])
        exact ⟨out, by simp [listLoop, hk, hout]⟩
      · obtain ⟨out, hout⟩ := ih hrest acc
        exact ⟨out, by simp [listLoop, hk, hout]⟩
    | done => exact ⟨(acc, false), rfl⟩
    | err => exact ⟨(acc, true), rfl⟩

/-- A well-formed metadata stream gives `list_collections` a result. -/
lemma list_collections_some (steps : List MetaOutcome)
    (h : wfMeta steps = true) :
    ∃ r, list_collections true (some steps) = some r := by
  obtain ⟨⟨cols, flag⟩, hout⟩ := listLoop_some steps h []
  cases flag with
  | false => exact ⟨⟨cols, true, true, false⟩, by simp [list_collections, hout]⟩
  | true => exact ⟨⟨[], true, false, true⟩, by simp [list_collections, hout]⟩

/-- A well-formed table open result gives `read_collection` a result. -/
lemma read_collection_some (openR : Option (List AdvOutcome))
    (h : wfTbl openR = true) (lim : Option Int) :
    ∃ r, read_collection true openR lim = some r := by
  cases openR with
  | none => exact ⟨⟨[], false, false, true⟩, rfl⟩
  | some steps =>
    obtain ⟨⟨docs, flag⟩, hout⟩ := readLoop_some steps h lim 0 []
    cases flag with
    | false =>
      exact ⟨⟨docs, true, true, false⟩, by simp [read_collection, hout]⟩
    | true =>
      exact ⟨⟨[], true, false, true⟩, by simp [read_collection, hout]⟩

end WTReader

namespace WTReader

/-- C1: refuted by the code (code bug). The claim says every cursor opened
by `read_collection` or `list_collections` is closed before the call
returns, on every exit path including the error path returning `[]`. In the
source there is no `finally`: when an engine error escapes to the outer
handler, `cursor.close()` (line 169) resp. `meta_cursor.close()` (line 91)
is skipped and the function returns `[]` with the cursor still open. This
theorem evaluates both functions at a first-advance engine error (code
-31802, i.e. WT_ERROR) and shows `cursorOpened = true` with
`cursorClosed = false`. -/
theorem c1_error_path_cursor_not_closed :
    read_collection true (some [AdvOutcome.errCode (-31802)]) none
      = some ⟨[], true, false, true⟩ ∧
    list_collections true (some [MetaOutcome.err])
      = some ⟨[], true, false, true⟩ := by
  constructor <;> rfl

/-- C2 counterexample: the claim says every `limit ≤ 0`, including negative
limits, behaves as no limit. On a one-record table, `limit = -1` makes the
truthy check `if limit and count >= limit` fire on the first iteration
(`0 >= -1`), so the call returns `[]`, while `limit = None` returns the
record: the two results differ. -/
theorem c2_counterexample :
    read_collection true (some (tableSteps [⟨"k", "v"⟩])) (some (-1))
        = some ⟨[], true, true, false⟩ ∧
    read_collection true (some (tableSteps [⟨"k", "v"⟩])) none
        = some ⟨[⟨"k", "v"⟩], true, true, false⟩ ∧
    read_collection true (some (tableSteps [⟨"k", "v"⟩])) (some (-1))
        ≠ read_collection true (some (tableSteps [⟨"k", "v"⟩])) none := by
  refine ⟨rfl, rfl, ?_⟩
  decide

/-- C2 (amended): only `limit = 0` is treated as no limit (it is falsy, like
`None`); a strictly negative limit makes the limit check fire before the
first record is appended, so `read_collection` returns the empty list (with
the cursor closed normally and no error), not the full table. -/
theorem c2_nonpos_limit (rs : List Doc) (l : Int) (hl : l ≤ 0) :
    read_collection true (some (tableSteps rs)) none
        = some ⟨rs, true, true, false⟩ ∧
    read_collection true (some (tableSteps rs)) (some l)
        = (if l = 0 then some ⟨rs, true, true, false⟩
           else some ⟨[], true, true, false⟩) := by
  constructor
  · simp [read_collection, readLoop_tableSteps_noLimit rs none limitBreak_none]
  · by_cases h0 : l = 0
    · subst h0
      simp [read_collection, readLoop_tableSteps_noLimit rs (some 0) limitBreak_zero]
    · have hneg : l < 0 := by omega
      rw [if_neg h0]
      cases rs with
      | nil => rfl
      | cons r rest =>
        simp [read_collection, tableSteps, readLoop, limitBreak_neg l hneg 0]

/-- C2 witness: the amended statement applied to a one-record table and
`limit = -2`. -/
theorem c2_witness :
    (-2 : Int) ≤ 0 ∧
    (read_collection true (some (tableSteps [⟨"a", "1"⟩])) none
        = some ⟨[⟨"a", "1"⟩], true, true, false⟩ ∧
     read_collection true (some (tableSteps [⟨"a", "1"⟩])) (some (-2))
        = (if (-2 : Int) = 0 then some ⟨[⟨"a", "1"⟩], true, true, false⟩
           else some ⟨[], true, true, false⟩)) :=
  ⟨by decide, c2_nonpos_limit [⟨"a", "1"⟩] (-2) (by decide)⟩

/-- C3: confirmed. For every table content `rs` and integer `k > 0`,
`read_collection` with `limit = k` returns exactly the first `k` records
(so at most `k`, and exactly `k` whenever the table has at least `k`). -/
theorem c3_limit_bounds (rs : List Doc) (k : Int) (hk : 0 < k) :
    read_collection true (some (tableSteps rs)) (some k)
        = some ⟨rs.take k.toNat, true, true, false⟩ ∧
    (rs.take k.toNat).length ≤ k.toNat ∧
    (k.toNat ≤ rs.length → (rs.take k.toNat).length = k.toNat) := by
  refine ⟨?_, ?_, ?_⟩
  · simp [read_collection, readLoop_tableSteps_pos rs k hk 0 []]
  · simp [List.length_take]
  · intro h
    simp [List.length_take]
    omega

/-- C3 witness: a three-record table read with `limit = 2`. -/
theorem c3_witness :
    (0 : Int) < 2 ∧
    (read_collection true
        (some (tableSteps [⟨"a", "1"⟩, ⟨"b", "2"⟩, ⟨"c", "3"⟩])) (some 2)
        = some ⟨([⟨"a", "1"⟩, ⟨"b", "2"⟩, ⟨"c", "3"⟩] : List Doc).take (2 : Int).toNat,
            true, true, false⟩ ∧
     (([⟨"a", "1"⟩, ⟨"b", "2"⟩, ⟨"c", "3"⟩] : List Doc).take (2 : Int).toNat).length
        ≤ (2 : Int).toNat ∧
     ((2 : Int).toNat ≤ ([⟨"a", "1"⟩, ⟨"b", "2"⟩, ⟨"c", "3"⟩] : List Doc).length →
       (([⟨"a", "1"⟩, ⟨"b", "2"⟩, ⟨"c", "3"⟩] : List Doc).take (2 : Int).toNat).length
          = (2 : Int).toNat)) :=
  ⟨by decide, c3_limit_bounds [⟨"a", "1"⟩, ⟨"b", "2"⟩, ⟨"c", "3"⟩] 2 (by decide)⟩

/-- C4 counterexample: the claim says an identifier that merely starts with
the size-tracking name `table:sizeStorer` but is not equal to it is
included. The source filter uses `startswith("table:sizeStorer")`, not
equality: the URI `table:sizeStorer2` has the `table:` prefix, lacks the
index prefix, differs from `table:sizeStorer`, yet `list_collections`
excludes it. -/
theorem c4_counterexample :
    keepUri "table:sizeStorer2" = false ∧
    pyStartsWith "table:sizeStorer2" "table:" = true ∧
    pyStartsWith "table:sizeStorer2" "table:index-" = false ∧
    "table:sizeStorer2" ≠ "table:sizeStorer" ∧
    list_collections true
        (some [MetaOutcome.entry "table:sizeStorer2", MetaOutcome.done])
      = some ⟨[], true, true, false⟩ := by
  refine ⟨by decide, by decide, by decide, by decide, by decide⟩

/-- C4 (amended): an entry is included iff its URI starts with `table:`,
does not start with `table:index-`, and does not START WITH
`table:sizeStorer` (a prefix check, so identifiers merely beginning with
the size-tracking name are also excluded); included entries contribute the
part of the URI after the first colon. -/
theorem c4_filter_rule (uris : List String) :
    list_collections true
        (some (uris.map MetaOutcome.entry ++ [MetaOutcome.done]))
      = some ⟨(uris.filter keepUri).map afterColon, true, true, false⟩ := by
  simp [list_collections, listLoop_entries uris [MetaOutcome.done] [], listLoop]

end WTReader

namespace WTReader

/-- C5 counterexample: the claim says `main` exits 0 for every value of the
optional third limit argument once at least one positional argument is
given and connecting succeeds. With argv
`[script, data_dir, table, "three"]`, connect succeeding, and a well-formed
store, `int(sys.argv[3])` raises an uncaught `ValueError`, so the process
exits 1, not 0. -/
theorem c5_counterexample :
    (["wt_reader.py", "/data", "db.a", "three"] : List String).length = 4 ∧
    (Env.mk true [MetaOutcome.done] (some [AdvOutcome.notFound])).connectOk = true ∧
    pyIntOfStr "three" = none ∧
    main ["wt_reader.py", "/data", "db.a", "three"]
        (Env.mk true [MetaOutcome.done] (some [AdvOutcome.notFound]))
      = some 1 := by
  refine ⟨rfl, rfl, by decide, by decide⟩

/-- C5 (amended): `main` exits 1 if fewer than one positional argument is
given, if connecting fails, or if a third optional argument is present and
is not a valid integer literal (the uncaught `ValueError` ends the process
with code 1); it exits 0 in every other case, including an empty catalog
and a missing or unreadable table. -/
theorem c5_exit_codes (argv : List String) (env : Env)
    (hm : wfMeta env.metaSteps = true) (ht : wfTbl env.tblOpen = true) :
    main argv env
      = some (if argv.length < 2 ∨ env.connectOk = false
                ∨ (3 < argv.length ∧ pyIntOfStr (argv.getD 3 "") = none)
              then 1 else 0) := by
  unfold main
  by_cases h1 : argv.length < 2
  · simp [h1]
  · rw [if_neg h1]
    by_cases h2 : env.connectOk = false
    · simp [h1, h2]
    · rw [if_neg h2]
      obtain ⟨L, hL⟩ := list_collections_some env.metaSteps hm
      rw [hL]
      by_cases h3 : 2 < argv.length
      · rw [if_pos h3]
        by_cases h4 : 3 < argv.length
        · rw [if_pos h4]
          cases hp : pyIntOfStr (argv.getD 3 "") with
          | none => simp [h1, h2, h4, hp]
          | some l =>
            obtain ⟨R, hR⟩ := read_collection_some env.tblOpen ht (some l)
            simp [h1, h2, h4, hp, hR]
        · rw [if_neg h4]
          obtain ⟨R, hR⟩ := read_collection_some env.tblOpen ht none
          simp [h1, h2, h4, hR]
      · rw [if_neg h3]
        have h4 : ¬ 3 < argv.length := by omega
        simp [h1, h2, h4]

/-- C5 witness: the amended statement applied to a two-argument run against
a well-formed empty store with connect succeeding (exit code 0). -/
theorem c5_witness :
    wfMeta (Env.mk true [MetaOutcome.done] (some [AdvOutcome.notFound])).metaSteps
        = true ∧
    wfTbl (Env.mk true [MetaOutcome.done] (some [AdvOutcome.notFound])).tblOpen
        = true ∧
    main ["wt_reader.py", "/data"]
        (Env.mk true [MetaOutcome.done] (some [AdvOutcome.notFound]))
      = some (if (["wt_reader.py", "/data"] : List String).length < 2
                ∨ (Env.mk true [MetaOutcome.done] (some [AdvOutcome.notFound])).connectOk
                    = false
                ∨ (3 < (["wt_reader.py", "/data"] : List String).length
                    ∧ pyIntOfStr ((["wt_reader.py", "/data"] : List String).getD 3 "")
                        = none)
              then 1 else 0) :=
  ⟨by decide, by decide,
    c5_exit_codes ["wt_reader.py", "/data"]
      (Env.mk true [MetaOutcome.done] (some [AdvOutcome.notFound]))
      (by decide) (by decide)⟩

/-- C6: confirmed. On an engine error during iteration — a nonzero
non-NOTFOUND return code, a raised non-NOTFOUND `WiredTigerError`, or a
metadata iteration fault — the records collected so far are discarded: the
call logs the error and returns the empty list instead of partial data or
a raised exception. -/
theorem c6_error_discards_results (ps : List Doc) (us : List String) (c : Int)
    (hc0 : c ≠ 0) (hcn : c ≠ WT_NOTFOUND) :
    read_collection true
        (some (ps.map AdvOutcome.found ++ [AdvOutcome.errCode c])) none
      = some ⟨[], true, false, true⟩ ∧
    read_collection true
        (some (ps.map AdvOutcome.found ++ [AdvOutcome.errExc false])) none
      = some ⟨[], true, false, true⟩ ∧
    list_collections true
        (some (us.map MetaOutcome.entry ++ [MetaOutcome.err]))
      = some ⟨[], true, false, true⟩ := by
  refine ⟨?_, ?_, ?_⟩
  · simp [read_collection,
      readLoop_found_accum ps [AdvOutcome.errCode c] none limitBreak_none 0 [],
      readLoop, hcn, hc0]
  · simp [read_collection,
      readLoop_found_accum ps [AdvOutcome.errExc false] none limitBreak_none 0 [],
      readLoop]
  · simp [list_collections, listLoop_entries us [MetaOutcome.err] [], listLoop]

/-- C6 witness: an error with code -31802 after one collected record, and a
metadata fault after one listed entry. -/
theorem c6_witness :
    (-31802 : Int) ≠ 0 ∧ (-31802 : Int) ≠ WT_NOTFOUND ∧
    (read_collection true
        (some (([⟨"a", "1"⟩] : List Doc).map AdvOutcome.found
          ++ [AdvOutcome.errCode (-31802)])) none
      = some ⟨[], true, false, true⟩ ∧
     read_collection true
        (some (([⟨"a", "1"⟩] : List Doc).map AdvOutcome.found
          ++ [AdvOutcome.errExc false])) none
      = some ⟨[], true, false, true⟩ ∧
     list_collections true
        (some ((["table:db.a"] : List String).map MetaOutcome.entry
          ++ [MetaOutcome.err]))
      = some ⟨[], true, false, true⟩) :=
  ⟨by decide, by decide,
    c6_error_discards_results [⟨"a", "1"⟩] ["table:db.a"] (-31802)
      (by decide) (by decide)⟩

/-- C7: confirmed. In the `read_collection` advance loop, `WT_NOTFOUND` —
whether as return code or as a recognized exception — ends the iteration
normally (flag `false`, collected records kept), while any other nonzero
return code or unrecognized `WiredTigerError` ends it through the error
path (flag `true`), never through the normal-exhaustion path. -/
theorem c7_notfound_vs_error (ps : List Doc) (c : Int)
    (hc0 : c ≠ 0) (hcn : c ≠ WT_NOTFOUND) :
    readLoop (ps.map AdvOutcome.found ++ [AdvOutcome.notFound]) none 0 []
      = some (ps, false) ∧
    readLoop (ps.map AdvOutcome.found ++ [AdvOutcome.errExc true]) none 0 []
      = some (ps, false) ∧
    readLoop (ps.map AdvOutcome.found ++ [AdvOutcome.errCode c]) none 0 []
      = some (ps, true) ∧
    readLoop (ps.map AdvOutcome.found ++ [AdvOutcome.errExc false]) none 0 []
      = some (ps, true) := by
  refine ⟨?_, ?_, ?_, ?_⟩
  · rw [readLoop_found_accum ps [AdvOutcome.notFound] none limitBreak_none 0 []]
    simp [readLoop]
  · rw [readLoop_found_accum ps [AdvOutcome.errExc true] none limitBreak_none 0 []]
    simp [readLoop]
  · rw [readLoop_found_accum ps [AdvOutcome.errCode c] none limitBreak_none 0 []]
    simp [readLoop, hcn, hc0]
  · rw [readLoop_found_accum ps [AdvOutcome.errExc false] none limitBreak_none 0 []]
    simp [readLoop]

/-- C7 witness: one record followed by each terminating outcome, with error
code -31802. -/
theorem c7_witness :
    (-31802 : Int) ≠ 0 ∧ (-31802 : Int) ≠ WT_NOTFOUND ∧
    (readLoop (([⟨"a", "1"⟩] : List Doc).map AdvOutcome.found
        ++ [AdvOutcome.notFound]) none 0 [] = some ([⟨"a", "1"⟩], false) ∧
     readLoop (([⟨"a", "1"⟩] : List Doc).map AdvOutcome.found
        ++ [AdvOutcome.errExc true]) none 0 [] = some ([⟨"a", "1"⟩], false) ∧
     readLoop (([⟨"a", "1"⟩] : List Doc).map AdvOutcome.found
        ++ [AdvOutcome.errCode (-31802)]) none 0 [] = some ([⟨"a", "1"⟩], true) ∧
     readLoop (([⟨"a", "1"⟩] : List Doc).map AdvOutcome.found
        ++ [AdvOutcome.errExc false]) none 0 [] = some ([⟨"a", "1"⟩], true)) :=
  ⟨by decide, by decide,
    c7_notfound_vs_error [⟨"a", "1"⟩] (-31802) (by decide) (by decide)⟩

/-- C8: confirmed. `close` is total (always returns, modelling "never
faults") and idempotent: after any `close` both handles are cleared, a
second `close` changes nothing and makes no engine calls, and `close` on a
reader that never connected is a no-op. -/
theorem c8_close_idempotent (s : ReaderState) :
    (close s).1 = ⟨false, false⟩ ∧
    close (close s).1 = (⟨false, false⟩, []) ∧
    close ⟨false, false⟩ = (⟨false, false⟩, []) := by
  obtain ⟨a, b⟩ := s
  cases a <;> cases b <;> exact ⟨rfl, rfl, rfl⟩

/-- C9: confirmed. When both the session and the connection are open,
`close` emits the session close strictly before the connection close; the
connection is never closed while the session is still open. -/
theorem c9_session_closed_before_conn (s : ReaderState)
    (h1 : s.sessionOpen = true) (h2 : s.connOpen = true) :
    (close s).2 = [CloseEvent.sessionClose, CloseEvent.connClose] := by
  obtain ⟨a, b⟩ := s
  cases a
  · exact Bool.noConfusion h1
  · cases b
    · exact Bool.noConfusion h2
    · rfl

/-- C9 witness: a reader with both handles open. -/
theorem c9_witness :
    (ReaderState.mk true true).sessionOpen = true ∧
    (ReaderState.mk true true).connOpen = true ∧
    (close (ReaderState.mk true true)).2
      = [CloseEvent.sessionClose, CloseEvent.connClose] :=
  ⟨rfl, rfl, c9_session_closed_before_conn (ReaderState.mk true true) rfl rfl⟩

/-- C10: confirmed. With no open session (never connected, failed connect,
or already closed), `list_collections` and `read_collection` return the
empty list after logging, for every engine behavior and limit: no cursor is
opened and no exception escapes (the functions are total). -/
theorem c10_no_session_guard (openMeta : Option (List MetaOutcome))
    (openTbl : Option (List AdvOutcome)) (lim : Option Int) :
    list_collections false openMeta = some ⟨[], false, false, true⟩ ∧
    read_collection false openTbl lim = some ⟨[], false, false, true⟩ :=
  ⟨rfl, rfl⟩

end WTReader
